import Mathlib

/-!
# Portfolio website script: particle field and modal gallery

A shallow embedding of `src/script.js`.

* The particle field (`Particle.update`, the connection pass of `animate`) is
  modelled over exact rational arithmetic.
* The modal gallery (`openModal`, its inner `updateMainDisplay`, the prev/next
  button handlers, the close handlers) is modelled as explicit state passing on
  the two script globals `currentMediaIndex` / `currentGameMedia` together with
  the attributes of the page elements the script writes.

The page itself (the HTML) is not part of the script.  Elements the script
looks up behind a guard (`modal`, the two action links, the two navigation
buttons) are recorded in `Page` as present or absent; the
elements `openModal` dereferences without a guard (`modal-title`,
`modal-desc`, `modal-tags`, `modal-gallery`, `modal-img`,
`modal-video-iframe`, `video-play-btn`) are taken to be supplied by the page.

The script global `games` is a plain object, so the expression `games[id]`
also finds what the object inherits: the members of `Object.prototype`, and
the properties of a record installed as prototype by an assignment to
`__proto__`.  `Games` is that lookup; `openModal` on a truthy value that is
not a record writes the title and description, empties the tags and ends in a
`TypeError` at `game.tags.forEach`.
-/

namespace Portfolio

/-! # Definitions -/

/-! ## Particle field -/

/-- The script globals `width` and `height`, as set by `resize`. -/
structure Viewport where
  width : ℚ
  height : ℚ
deriving DecidableEq, Repr

/-- Fields of `class Particle`. -/
structure Particle where
  x : ℚ
  y : ℚ
  vx : ℚ
  vy : ℚ
  size : ℚ
  color : String
deriving DecidableEq, Repr

/-- The method `Particle.update`: advance the position by the velocity, then invert the
velocity on each axis whose new coordinate is `< 0` or `>` the bound. -/
def Particle.update (v : Viewport) (p : Particle) : Particle :=
  let x := p.x + p.vx
  let y := p.y + p.vy
  let vx := if x < 0 ∨ x > v.width then p.vx * -1 else p.vx
  let vy := if y < 0 ∨ y > v.height then p.vy * -1 else p.vy
  { p with x := x, y := y, vx := vx, vy := vy }

/-- A number of consecutive `update` calls under one viewport. -/
def Particle.updateN (v : Viewport) : Nat → Particle → Particle
  | 0, p => p
  | n + 1, p => Particle.updateN v n (Particle.update v p)

/-- One stroked connection line of `animate`. -/
structure Line where
  x1 : ℚ
  y1 : ℚ
  x2 : ℚ
  y2 : ℚ
  opacity : ℚ
  lineWidth : ℚ
deriving DecidableEq, Repr

/-- The distance of a pair in the connection pass, `Math.sqrt(dx*dx + dy*dy)`;
the square root is a parameter. -/
def pairDist (sqrt : ℚ → ℚ) (p1 p2 : Particle) : ℚ :=
  let dx := p1.x - p2.x
  let dy := p1.y - p2.y
  sqrt (dx * dx + dy * dy)

/-- Body of the inner loop of the connection pass, from the computed `dist`
on: a line is stroked only under `dist < 100`, with alpha `0.1 - dist / 1000`. -/
def connectAt (dist : ℚ) (p1 p2 : Particle) : Option Line :=
  if dist < 100 then
    some { x1 := p1.x, y1 := p1.y, x2 := p2.x, y2 := p2.y,
           opacity := 1 / 10 - dist / 1000, lineWidth := 1 / 2 }
  else none

/-- Inner loop body of the connection pass for one pair. -/
def connectPair (sqrt : ℚ → ℚ) (p1 p2 : Particle) : Option Line :=
  connectAt (pairDist sqrt p1 p2) p1 p2

/-- The connection pass: every particle against `particles.slice(i + 1)`. -/
def connectionPass (sqrt : ℚ → ℚ) : List Particle → List Line
  | [] => []
  | p1 :: rest => rest.filterMap (connectPair sqrt p1) ++ connectionPass sqrt rest

/-! ## Game showcase: data -/

/-- A media item of a game record (`type`, `src`, `poster`, `videoUrl`). -/
structure MediaItem where
  type : String
  src : String
  poster : String
  videoUrl : String
deriving DecidableEq, Repr

/-- A game record of `games.json`.  `media`, `githubUrl` and `playUrl` may be
absent. -/
structure Game where
  id : String
  title : String
  desc : String
  tags : List String
  media : Option (List MediaItem)
  githubUrl : Option String
  playUrl : Option String
deriving DecidableEq, Repr

/-- What the expression `games[id]` can evaluate to. -/
inductive Value where
  | undefined
  | string (s : String)
  | array
  | function
  | objectPrototype
  | record (game : Game)
deriving DecidableEq, Repr

/-- JavaScript truthiness of a looked-up value: `undefined` and the empty
string are falsy, every object, array and function is truthy. -/
def Value.truthy : Value → Bool
  | .undefined => false
  | .string s => s ≠ ""
  | _ => true

/-- The script global `games` as the script reads it: the lookup `games[id]`. -/
abbrev Games := String → Value

/-- The object `games` while `loadGames` fills it: its own properties and, when
an assignment to `__proto__` has replaced it, the record that is its prototype
(`none`: the prototype is `Object.prototype`). -/
structure GamesObject where
  own : String → Option Game
  proto : Option Game

/-- The statement `games = {}`. -/
def emptyObject : GamesObject := { own := fun _ => none, proto := none }

/-- The property names of `Object.prototype` other than `__proto__`; all are
functions. -/
def objectPrototypeFunctions : List String :=
  ["constructor", "hasOwnProperty", "isPrototypeOf", "propertyIsEnumerable",
   "toLocaleString", "toString", "valueOf",
   "__defineGetter__", "__defineSetter__", "__lookupGetter__", "__lookupSetter__"]

/-- The own properties of a record object parsed from `games.json`. -/
def Game.ownProperty (g : Game) (k : String) : Option Value :=
  if k = "id" then some (.string g.id)
  else if k = "title" then some (.string g.title)
  else if k = "desc" then some (.string g.desc)
  else if k = "tags" then some .array
  else if k = "media" then g.media.map (fun _ => .array)
  else if k = "githubUrl" then g.githubUrl.map .string
  else if k = "playUrl" then g.playUrl.map .string
  else none

/-- The statement `games[game.id] = game`: an own property, except for the id
`__proto__`, whose setter makes the record the prototype of `games`. -/
def GamesObject.assign (o : GamesObject) (game : Game) : GamesObject :=
  if game.id = "__proto__" then { o with proto := some game }
  else { o with own := fun k => if k = game.id then some game else o.own k }

/-- The expression `games[k]`: an own property, else a property of the record
that is the prototype, else a member of `Object.prototype` (`__proto__` reads
the prototype itself), else `undefined`. -/
def GamesObject.get (o : GamesObject) (k : String) : Value :=
  match o.own k with
  | some g => .record g
  | none =>
    match o.proto.bind (fun g => g.ownProperty k) with
    | some v => v
    | none =>
      if k = "__proto__" then
        match o.proto with
        | some g => .record g
        | none => .objectPrototype
      else if k ∈ objectPrototypeFunctions then .function
      else .undefined

/-- The conversion loop of `loadGames`: `games = {}`, then
`games[game.id] = game` for each record in order (a later record replaces an
earlier one with the same id); the result is read through `games[id]`. -/
def loadGames (gamesArray : List Game) : Games :=
  (gamesArray.foldl GamesObject.assign emptyObject).get

/-- JavaScript truthiness of an optional string field: present and non-empty. -/
def truthy : Option String → Bool
  | some s => s ≠ ""
  | none => false

/-! ## Game showcase: page and modal state -/

/-- Which guarded elements the page supplies. -/
structure Page where
  hasModal : Bool
  hasGithubBtn : Bool
  hasPlayBtn : Bool
  hasPrevBtn : Bool
  hasNextBtn : Bool
deriving DecidableEq, Repr

/-- An action link (`.modal-actions .btn-primary` / `.btn-secondary`).  The
script writes `href` and `target`; `display` is never written by it. -/
structure ActionLink where
  href : String
  target : String
  display : String
deriving DecidableEq, Repr

/-- A `.gallery-item` thumbnail built by `openModal`. -/
structure Thumb where
  imgSrc : String
  playIcon : Bool
  active : Bool
deriving DecidableEq, Repr

/-- Attributes of the page elements written by the modal logic. -/
structure Dom where
  modalDisplay : String
  bodyOverflow : String
  title : String
  desc : String
  tags : List String
  githubBtn : ActionLink
  playBtn : ActionLink
  gallery : List Thumb
  imgDisplay : String
  imgSrc : String
  iframeDisplay : String
  iframeSrc : String
  videoPlayBtnDisplay : String
deriving DecidableEq, Repr

/-- The modal session: the two script globals, the page attributes, and
whether the prev/next buttons carry their `onclick` handlers. -/
structure ModalState where
  currentMediaIndex : Int
  currentGameMedia : List MediaItem
  dom : Dom
  navHandlers : Bool
deriving DecidableEq, Repr

/-- The closure `updateMainDisplay` of `openModal`. -/
def updateMainDisplay (index : Int) (s : ModalState) : ModalState :=
  if index < 0 ∨ index ≥ (s.currentGameMedia.length : Int) then s
  else
    match s.currentGameMedia[index.toNat]? with
    | none => s
    | some mediaItem =>
      let d := s.dom
      let d :=
        if mediaItem.type = "video" then
          { d with imgDisplay := "none", videoPlayBtnDisplay := "none",
                   iframeSrc := mediaItem.videoUrl, iframeDisplay := "block" }
        else
          { d with imgDisplay := "block", imgSrc := mediaItem.src,
                   iframeDisplay := "none", iframeSrc := "",
                   videoPlayBtnDisplay := "none" }
      let d := { d with gallery :=
        d.gallery.enum.map (fun (idx, el) => { el with active := decide ((idx : Int) = index) }) }
      { s with currentMediaIndex := index, dom := d }

/-- The handler `prevBtn.onclick`; `%` is JavaScript's truncating remainder. -/
def prevHandler (s : ModalState) : ModalState :=
  if s.currentGameMedia.length > 0 then
    let newIndex := Int.tmod (s.currentMediaIndex - 1 + s.currentGameMedia.length)
      s.currentGameMedia.length
    updateMainDisplay newIndex s
  else s

/-- The handler `nextBtn.onclick`. -/
def nextHandler (s : ModalState) : ModalState :=
  if s.currentGameMedia.length > 0 then
    let newIndex := Int.tmod (s.currentMediaIndex + 1) s.currentGameMedia.length
    updateMainDisplay newIndex s
  else s

/-- The thumbnail built for one media item in `openModal`. -/
def mkThumb (item : MediaItem) (index : Nat) : Thumb :=
  { imgSrc := if item.type = "video" then item.poster else item.src,
    playIcon := decide (item.type = "video"),
    active := decide (index = 0) }

/-- First block of `openModal`: title, description and the tag spans. -/
def setupTexts (game : Game) (d : Dom) : Dom :=
  { d with title := game.title, desc := game.desc, tags := game.tags }

/-- Block "Setup Action Buttons" of `openModal`: each link gets `href` and
`target` only when the link exists and the record's URL is truthy; there is no
other branch. -/
def setupActionButtons (page : Page) (game : Game) (d : Dom) : Dom :=
  let d :=
    if page.hasGithubBtn && truthy game.githubUrl then
      { d with githubBtn := { d.githubBtn with href := game.githubUrl.getD "", target := "_blank" } }
    else d
  if page.hasPlayBtn && truthy game.playUrl then
    { d with playBtn := { d.playBtn with href := game.playUrl.getD "", target := "_blank" } }
  else d

/-- The thumbnails appended to the gallery, one per media item. -/
def mkThumbs (media : List MediaItem) : List Thumb :=
  media.enum.map (fun (index, item) => mkThumb item index)

/-- Block "Setup Gallery and Main Media" of `openModal`: clear the gallery,
assign `currentGameMedia = game.media || []` and `currentMediaIndex = 0`, and,
for a non-empty list, call `updateMainDisplay(0)` and build the thumbnails. -/
def setupGallery (game : Game) (s : ModalState) : ModalState :=
  let s : ModalState :=
    { s with currentGameMedia := game.media.getD [], currentMediaIndex := 0,
             dom := { s.dom with gallery := [] } }
  if s.currentGameMedia.length > 0 then
    let s := updateMainDisplay 0 s
    { s with dom := { s.dom with gallery := s.dom.gallery ++ mkThumbs s.currentGameMedia } }
  else s

/-- Block "Setup navigation buttons" of `openModal`. -/
def setupNavigation (page : Page) (s : ModalState) : ModalState :=
  if page.hasPrevBtn && page.hasNextBtn then { s with navHandlers := true } else s

/-- Last two statements of `openModal`: show the modal, lock page scroll. -/
def showModal (s : ModalState) : ModalState :=
  { s with dom := { s.dom with modalDisplay := "block", bodyOverflow := "hidden" } }

/-- How a call ends. -/
inductive Completion where
  | normal
  | typeError
deriving DecidableEq, Repr

/-- The statements of `openModal` up to the `TypeError`, for a truthy `game`
that is not a record: `game.title` and `game.desc` are `undefined` (written as
the text `undefined`), the tag container is emptied, and `game.tags.forEach`
throws. -/
def setupTextsUndefined (s : ModalState) : ModalState :=
  { s with dom := { s.dom with title := "undefined", desc := "undefined", tags := [] } }

/-- The function `openModal(gameId)`: the state it leaves and how it ends. -/
def openModalCall (page : Page) (games : Games) (gameId : String) (s : ModalState) :
    ModalState × Completion :=
  if !page.hasModal then (s, .normal)
  else
    let game := games gameId
    if !game.truthy then (s, .normal)
    else
      match game with
      | .record game =>
        (showModal (setupNavigation page (setupGallery game
          { s with dom := setupActionButtons page game (setupTexts game s.dom) })), .normal)
      | _ => (setupTextsUndefined s, .typeError)

/-- The state a call `openModal(gameId)` leaves, whether it returns or throws. -/
def openModal (page : Page) (games : Games) (gameId : String) (s : ModalState) : ModalState :=
  (openModalCall page games gameId s).1

/-- The handlers `closeModal.onclick` and `window.onclick` on the overlay. -/
def closeHandler (s : ModalState) : ModalState :=
  { s with dom := { s.dom with modalDisplay := "none", bodyOverflow := "auto", iframeSrc := "" } }

/-- User events on the modal. -/
inductive Event where
  | openModal (gameId : String)
  | prev
  | next
  | thumb (index : Int)
  | close
deriving DecidableEq, Repr

/-- Dispatch of one event.  The prev/next buttons react only once `openModal`
has attached their handlers; a thumbnail click calls `updateMainDisplay`;
closing needs the modal element. -/
def step (page : Page) (games : Games) (s : ModalState) : Event → ModalState
  | .openModal gameId => openModal page games gameId s
  | .prev => if s.navHandlers then prevHandler s else s
  | .next => if s.navHandlers then nextHandler s else s
  | .thumb index => updateMainDisplay index s
  | .close => if page.hasModal then closeHandler s else s

/-- A finite sequence of events. -/
def run (page : Page) (games : Games) (s : ModalState) (es : List Event) : ModalState :=
  es.foldl (step page games) s

/-- The main display shows the media item: a video through the iframe with its
embed URL, anything else through the image element with its source. -/
def Displays (d : Dom) (m : MediaItem) : Prop :=
  if m.type = "video" then
    d.iframeDisplay = "block" ∧ d.iframeSrc = m.videoUrl ∧ d.imgDisplay = "none"
  else
    d.imgDisplay = "block" ∧ d.imgSrc = m.src ∧ d.iframeDisplay = "none"

instance (d : Dom) (m : MediaItem) : Decidable (Displays d m) := by
  unfold Displays; infer_instance

/-! ## Example data -/

/-- An image item `imgA`. -/
def imgA : MediaItem := { type := "image", src := "a.png", poster := "", videoUrl := "" }

/-- A video item `vidB`. -/
def vidB : MediaItem := { type := "video", src := "", poster := "b.png", videoUrl := "https://v/b" }

/-- An image item `imgC`. -/
def imgC : MediaItem := { type := "image", src := "c.png", poster := "", videoUrl := "" }

/-- The record `g1` of the example: three media items, both links. -/
def g1 : Game :=
  { id := "g1", title := "One", desc := "first", tags := ["a"],
    media := some [imgA, vidB, imgC],
    githubUrl := some "https://git/one", playUrl := some "https://play/one" }

/-- A record without links and without media. -/
def g2 : Game :=
  { id := "g2", title := "Two", desc := "second", tags := [],
    media := none, githubUrl := none, playUrl := none }

/-- A page that supplies every element. -/
def fullPage : Page :=
  { hasModal := true, hasGithubBtn := true, hasPlayBtn := true,
    hasPrevBtn := true, hasNextBtn := true }

/-- The page attributes before the script has touched them. -/
def dom0 : Dom :=
  { modalDisplay := "none", bodyOverflow := "", title := "", desc := "", tags := [],
    githubBtn := { href := "#", target := "", display := "inline-block" },
    playBtn := { href := "#", target := "", display := "inline-block" },
    gallery := [], imgDisplay := "", imgSrc := "", iframeDisplay := "", iframeSrc := "",
    videoPlayBtnDisplay := "" }

/-- The session at script load: `currentMediaIndex = 0`, `currentGameMedia = []`. -/
def initialSession : ModalState :=
  { currentMediaIndex := 0, currentGameMedia := [], dom := dom0, navHandlers := false }

/-! ## Session invariant -/

/-- The index invariant of the session. -/
def IndexValid (s : ModalState) : Prop :=
  s.currentGameMedia ≠ [] →
    0 ≤ s.currentMediaIndex ∧ s.currentMediaIndex < (s.currentGameMedia.length : Int)

/-! ## Action links -/

/-- An action link is shown when its `display` is not `none`. -/
def ActionLink.shown (l : ActionLink) : Prop := l.display ≠ "none"

instance (l : ActionLink) : Decidable l.shown := by
  unfold ActionLink.shown; infer_instance

/-- The links follow the record, as the specification words it: each link is
shown exactly when the record has the URL, and then targets that URL. -/
def LinksFollow (g : Game) (d : Dom) : Prop :=
  (d.githubBtn.shown ↔ g.githubUrl.isSome = true) ∧
  (∀ u, g.githubUrl = some u → d.githubBtn.href = u) ∧
  (d.playBtn.shown ↔ g.playUrl.isSome = true) ∧
  (∀ u, g.playUrl = some u → d.playBtn.href = u)

/-! ## Particle field: predicates and example data -/

/-- The horizontal test of `update` on the advanced position. -/
def reflectsX (v : Viewport) (p : Particle) : Prop :=
  p.x + p.vx < 0 ∨ p.x + p.vx > v.width

/-- The vertical test of `update` on the advanced position. -/
def reflectsY (v : Viewport) (p : Particle) : Prop :=
  p.y + p.vy < 0 ∨ p.y + p.vy > v.height

instance (v : Viewport) (p : Particle) : Decidable (reflectsX v p) := by
  unfold reflectsX; infer_instance

instance (v : Viewport) (p : Particle) : Decidable (reflectsY v p) := by
  unfold reflectsY; infer_instance

/-- Horizontal invariant: the position is inside `[0, width]`, or the next
advance brings it inside. -/
def InvX (v : Viewport) (p : Particle) : Prop :=
  (0 ≤ p.x ∧ p.x ≤ v.width) ∨ (0 ≤ p.x + p.vx ∧ p.x + p.vx ≤ v.width)

/-- Vertical invariant. -/
def InvY (v : Viewport) (p : Particle) : Prop :=
  (0 ≤ p.y ∧ p.y ≤ v.height) ∨ (0 ≤ p.y + p.vy ∧ p.y + p.vy ≤ v.height)

/-- A viewport of 100 by 50. -/
def vp : Viewport := { width := 100, height := 50 }

/-- A particle inside `vp`, close to the right and top edges. -/
def pIn : Particle :=
  { x := 995 / 10, y := 1 / 10, vx := 2 / 10, vy := -2 / 10, size := 1, color := "#00ff88" }

/-- A particle left of `vp` (as after a resize) and moving further left. -/
def pOut : Particle :=
  { x := -10, y := 25, vx := -1, vy := 0, size := 1, color := "#7000ff" }

/-- The position moved from inside `[0, width]` to outside it during the
update: the reading of "boundary crossing" in the specification. -/
def crossesX (v : Viewport) (p : Particle) : Prop :=
  (0 ≤ p.x ∧ p.x ≤ v.width) ∧ ((p.update v).x < 0 ∨ (p.update v).x > v.width)

/-- Vertical counterpart of `crossesX`. -/
def crossesY (v : Viewport) (p : Particle) : Prop :=
  (0 ≤ p.y ∧ p.y ≤ v.height) ∧ ((p.update v).y < 0 ∨ (p.update v).y > v.height)

/-! # Theorems -/

/-! ## Lemmas on `updateMainDisplay` -/

theorem updateMainDisplay_out (index : Int) (s : ModalState)
    (h : index < 0 ∨ index ≥ (s.currentGameMedia.length : Int)) :
    updateMainDisplay index s = s := by
  unfold updateMainDisplay
  rw [if_pos h]

theorem updateMainDisplay_media (index : Int) (s : ModalState) :
    (updateMainDisplay index s).currentGameMedia = s.currentGameMedia := by
  unfold updateMainDisplay
  split
  · rfl
  · split <;> rfl

theorem updateMainDisplay_navHandlers (index : Int) (s : ModalState) :
    (updateMainDisplay index s).navHandlers = s.navHandlers := by
  unfold updateMainDisplay
  split
  · rfl
  · split <;> rfl

theorem updateMainDisplay_index_cases (index : Int) (s : ModalState) :
    updateMainDisplay index s = s ∨
      ((updateMainDisplay index s).currentMediaIndex = index ∧ 0 ≤ index ∧
        index < (s.currentGameMedia.length : Int)) := by
  unfold updateMainDisplay
  split
  · exact Or.inl rfl
  · rename_i h
    split
    · exact Or.inl rfl
    · right
      refine ⟨rfl, ?_, ?_⟩ <;> omega

theorem getElem?_toNat_of_valid (l : List MediaItem) (index : Int)
    (h0 : 0 ≤ index) (h1 : index < (l.length : Int)) :
    ∃ m, l[index.toNat]? = some m := by
  have h : index.toNat < l.length := by omega
  exact ⟨l[index.toNat], List.getElem?_eq_getElem h⟩

theorem updateMainDisplay_index (index : Int) (s : ModalState)
    (h0 : 0 ≤ index) (h1 : index < (s.currentGameMedia.length : Int)) :
    (updateMainDisplay index s).currentMediaIndex = index := by
  obtain ⟨m, hm⟩ := getElem?_toNat_of_valid s.currentGameMedia index h0 h1
  unfold updateMainDisplay
  rw [if_neg (by omega), hm]

theorem updateMainDisplay_displays (index : Int) (s : ModalState) (m : MediaItem)
    (h0 : 0 ≤ index) (hm : s.currentGameMedia[index.toNat]? = some m) :
    Displays (updateMainDisplay index s).dom m := by
  have hlt : index.toNat < s.currentGameMedia.length := by
    by_contra hc
    rw [List.getElem?_eq_none (by omega)] at hm
    cases hm
  unfold updateMainDisplay
  rw [if_neg (by omega), hm]
  unfold Displays
  by_cases hv : m.type = "video" <;> simp [hv]

theorem updateMainDisplay_indexValid (index : Int) (s : ModalState) (h : IndexValid s) :
    IndexValid (updateMainDisplay index s) := by
  rcases updateMainDisplay_index_cases index s with he | ⟨hi, h0, h1⟩
  · rw [he]; exact h
  · intro _
    rw [updateMainDisplay_media, hi]
    exact ⟨h0, h1⟩

theorem prevHandler_indexValid (s : ModalState) (h : IndexValid s) :
    IndexValid (prevHandler s) := by
  unfold prevHandler
  split
  · exact updateMainDisplay_indexValid _ s h
  · exact h

theorem nextHandler_indexValid (s : ModalState) (h : IndexValid s) :
    IndexValid (nextHandler s) := by
  unfold nextHandler
  split
  · exact updateMainDisplay_indexValid _ s h
  · exact h

/-! ## Lemmas on `openModal` -/

theorem openModalCall_falsy (page : Page) (games : Games) (gameId : String) (s : ModalState)
    (hg : (games gameId).truthy = false) :
    openModalCall page games gameId s = (s, Completion.normal) := by
  unfold openModalCall
  split
  · rfl
  · simp [hg]

theorem openModal_falsy (page : Page) (games : Games) (gameId : String) (s : ModalState)
    (hg : (games gameId).truthy = false) : openModal page games gameId s = s := by
  unfold openModal
  rw [openModalCall_falsy page games gameId s hg]

theorem openModal_noModal (page : Page) (games : Games) (gameId : String) (s : ModalState)
    (hm : page.hasModal = false) : openModal page games gameId s = s := by
  unfold openModal openModalCall
  simp [hm]

theorem openModalCall_other (page : Page) (games : Games) (gameId : String) (s : ModalState)
    (hm : page.hasModal = true) (ht : (games gameId).truthy = true)
    (hg : ∀ game : Game, games gameId ≠ Value.record game) :
    openModalCall page games gameId s = (setupTextsUndefined s, Completion.typeError) := by
  unfold openModalCall
  rw [if_neg (by simp [hm])]
  dsimp only
  rw [if_neg (by simp [ht])]
  split
  · rename_i game hv
    exact absurd hv (hg game)
  · rfl

theorem openModal_cases (page : Page) (games : Games) (gameId : String) (s : ModalState)
    (hg : ∀ game : Game, games gameId ≠ Value.record game) :
    openModal page games gameId s = s ∨ openModal page games gameId s = setupTextsUndefined s := by
  cases hm : page.hasModal with
  | false => exact Or.inl (openModal_noModal page games gameId s hm)
  | true =>
    cases ht : (games gameId).truthy with
    | false => exact Or.inl (openModal_falsy page games gameId s ht)
    | true =>
      right
      unfold openModal
      rw [openModalCall_other page games gameId s hm ht hg]

/-- On the example data, `games["toString"]` is the inherited function: the
call writes the text `undefined` as title and description, empties the tags
and ends in a `TypeError`; `games["nope"]` is `undefined` and the call
returns. -/
theorem openModalCall_inherited_name_example :
    loadGames [g1, g2] "toString" = Value.function ∧
    loadGames [g1, g2] "constructor" = Value.function ∧
    loadGames [g1, g2] "__proto__" = Value.objectPrototype ∧
    loadGames [g1, g2] "nope" = Value.undefined ∧
    openModalCall fullPage (loadGames [g1, g2]) "toString"
        (run fullPage (loadGames [g1, g2]) initialSession [.openModal "g1", .next]) =
      (setupTextsUndefined
        (run fullPage (loadGames [g1, g2]) initialSession [.openModal "g1", .next]),
       Completion.typeError) ∧
    (openModal fullPage (loadGames [g1, g2]) "toString"
        (run fullPage (loadGames [g1, g2]) initialSession [.openModal "g1", .next])).dom.title
      = "undefined" := by
  decide

theorem setupGallery_media (game : Game) (s : ModalState) :
    (setupGallery game s).currentGameMedia = game.media.getD [] := by
  unfold setupGallery
  dsimp only
  split
  · exact updateMainDisplay_media 0 _
  · rfl

theorem setupGallery_index (game : Game) (s : ModalState) :
    (setupGallery game s).currentMediaIndex = 0 := by
  unfold setupGallery
  dsimp only
  split
  · rename_i hlen
    exact updateMainDisplay_index 0 _ (le_refl 0) (by exact_mod_cast hlen)
  · rfl

theorem setupNavigation_index (page : Page) (s : ModalState) :
    (setupNavigation page s).currentMediaIndex = s.currentMediaIndex := by
  unfold setupNavigation
  split <;> rfl

theorem setupNavigation_media (page : Page) (s : ModalState) :
    (setupNavigation page s).currentGameMedia = s.currentGameMedia := by
  unfold setupNavigation
  split <;> rfl

theorem setupNavigation_dom (page : Page) (s : ModalState) :
    (setupNavigation page s).dom = s.dom := by
  unfold setupNavigation
  split <;> rfl

theorem openModal_known (page : Page) (games : Games) (gameId : String) (s : ModalState)
    (game : Game) (hm : page.hasModal = true) (hg : games gameId = Value.record game) :
    openModal page games gameId s =
      showModal (setupNavigation page (setupGallery game
        { s with dom := setupActionButtons page game (setupTexts game s.dom) })) := by
  unfold openModal openModalCall
  simp [hm, hg, Value.truthy]

theorem openModal_media (page : Page) (games : Games) (gameId : String) (s : ModalState)
    (game : Game) (hm : page.hasModal = true) (hg : games gameId = Value.record game) :
    (openModal page games gameId s).currentGameMedia = game.media.getD [] := by
  rw [openModal_known page games gameId s game hm hg]
  show (setupNavigation page _).currentGameMedia = _
  rw [setupNavigation_media, setupGallery_media]

theorem openModal_index (page : Page) (games : Games) (gameId : String) (s : ModalState)
    (game : Game) (hm : page.hasModal = true) (hg : games gameId = Value.record game) :
    (openModal page games gameId s).currentMediaIndex = 0 := by
  rw [openModal_known page games gameId s game hm hg]
  show (setupNavigation page _).currentMediaIndex = _
  rw [setupNavigation_index, setupGallery_index]

theorem openModal_indexValid (page : Page) (games : Games) (gameId : String) (s : ModalState)
    (h : IndexValid s) : IndexValid (openModal page games gameId s) := by
  cases hm : page.hasModal with
  | false => rw [openModal_noModal page games gameId s hm]; exact h
  | true =>
    by_cases hr : ∃ game : Game, games gameId = Value.record game
    · obtain ⟨game, hg⟩ := hr
      intro hne
      rw [openModal_index page games gameId s game hm hg]
      refine ⟨le_refl 0, ?_⟩
      have hpos : 0 < (openModal page games gameId s).currentGameMedia.length :=
        List.length_pos.mpr hne
      exact_mod_cast hpos
    · have hg : ∀ game : Game, games gameId ≠ Value.record game :=
        fun game hgame => hr ⟨game, hgame⟩
      rcases openModal_cases page games gameId s hg with he | he
      · rw [he]; exact h
      · rw [he]; exact h

theorem step_indexValid (page : Page) (games : Games) (s : ModalState) (e : Event)
    (h : IndexValid s) : IndexValid (step page games s e) := by
  cases e with
  | openModal gameId => exact openModal_indexValid page games gameId s h
  | prev =>
    show IndexValid (if s.navHandlers then prevHandler s else s)
    split
    · exact prevHandler_indexValid s h
    · exact h
  | next =>
    show IndexValid (if s.navHandlers then nextHandler s else s)
    split
    · exact nextHandler_indexValid s h
    · exact h
  | thumb index => exact updateMainDisplay_indexValid index s h
  | close =>
    show IndexValid (if page.hasModal then closeHandler s else s)
    split
    · exact h
    · exact h

theorem run_indexValid (page : Page) (games : Games) (es : List Event) :
    ∀ s : ModalState, IndexValid s → IndexValid (run page games s es) := by
  induction es with
  | nil => intro s h; exact h
  | cons e es ih =>
    intro s h
    exact ih (step page games s e) (step_indexValid page games s e h)

/-! ## Navigation arithmetic -/

theorem tmod_next (i n : Int) (h0 : 0 ≤ i) (h1 : i < n) :
    Int.tmod (i + 1) n = if i + 1 = n then 0 else i + 1 := by
  split
  · rename_i h
    rw [h, Int.tmod_self]
  · exact Int.tmod_eq_of_lt (by omega) (by omega)

theorem tmod_prev (i n : Int) (h0 : 0 ≤ i) (h1 : i < n) :
    Int.tmod (i - 1 + n) n = if i = 0 then n - 1 else i - 1 := by
  split
  · rename_i h
    subst h
    have hn : (0 : Int) - 1 + n = n - 1 := by ring
    rw [hn]
    exact Int.tmod_eq_of_lt (by omega) (by omega)
  · have h : i - 1 + n = (i - 1) + 1 * n := by ring
    rw [Int.tmod_eq_emod (by omega) (by omega), h, Int.add_mul_emod_self]
    exact Int.emod_eq_of_lt (by omega) (by omega)

theorem nextHandler_media (s : ModalState) :
    (nextHandler s).currentGameMedia = s.currentGameMedia := by
  unfold nextHandler
  split
  · exact updateMainDisplay_media _ s
  · rfl

theorem prevHandler_media (s : ModalState) :
    (prevHandler s).currentGameMedia = s.currentGameMedia := by
  unfold prevHandler
  split
  · exact updateMainDisplay_media _ s
  · rfl

theorem nextHandler_index (s : ModalState) (h0 : 0 ≤ s.currentMediaIndex)
    (h1 : s.currentMediaIndex < (s.currentGameMedia.length : Int)) :
    (nextHandler s).currentMediaIndex =
      if s.currentMediaIndex + 1 = (s.currentGameMedia.length : Int) then 0
      else s.currentMediaIndex + 1 := by
  have hpos : s.currentGameMedia.length > 0 := by omega
  unfold nextHandler
  rw [if_pos hpos]
  dsimp only
  rw [tmod_next _ _ h0 h1]
  apply updateMainDisplay_index <;> split <;> omega

theorem prevHandler_index (s : ModalState) (h0 : 0 ≤ s.currentMediaIndex)
    (h1 : s.currentMediaIndex < (s.currentGameMedia.length : Int)) :
    (prevHandler s).currentMediaIndex =
      if s.currentMediaIndex = 0 then (s.currentGameMedia.length : Int) - 1
      else s.currentMediaIndex - 1 := by
  have hpos : s.currentGameMedia.length > 0 := by omega
  unfold prevHandler
  rw [if_pos hpos]
  dsimp only
  rw [tmod_prev _ _ h0 h1]
  apply updateMainDisplay_index <;> split <;> omega

/-! ## Claims on the modal gallery -/

/-- C1: in every state reached from a successful `openModal(gameId)` (the
modal element exists and the id is a key of `games`) by any finite sequence of
prev clicks, next clicks, thumbnail clicks, further `openModal` calls (and
closings), a non-empty `currentGameMedia` has
`0 <= currentMediaIndex < currentGameMedia.length`. -/
theorem C1_index_valid_when_reachable (page : Page) (games : Games) (s0 : ModalState)
    (gameId : String) (game : Game) (es : List Event)
    (hm : page.hasModal = true) (hg : games gameId = Value.record game) :
    (run page games (openModal page games gameId s0) es).currentGameMedia ≠ [] →
      0 ≤ (run page games (openModal page games gameId s0) es).currentMediaIndex ∧
      (run page games (openModal page games gameId s0) es).currentMediaIndex <
        ((run page games (openModal page games gameId s0) es).currentGameMedia.length : Int) := by
  apply run_indexValid page games es
  intro hne
  rw [openModal_index page games gameId s0 game hm hg]
  refine ⟨le_refl 0, ?_⟩
  have hpos : 0 < (openModal page games gameId s0).currentGameMedia.length :=
    List.length_pos.mpr hne
  exact_mod_cast hpos

/-- Witness of C1: the example page, `g1` opened from a session whose index is
stale, then next, a thumbnail click, an unknown id, prev, prev. -/
theorem C1_index_valid_when_reachable_witness :
    fullPage.hasModal = true ∧ loadGames [g1, g2] "g1" = Value.record g1 ∧
    (run fullPage (loadGames [g1, g2])
        (openModal fullPage (loadGames [g1, g2]) "g1" { initialSession with currentMediaIndex := 7 })
        [.next, .thumb 2, .openModal "nope", .prev, .prev]).currentGameMedia ≠ [] ∧
    (0 ≤ (run fullPage (loadGames [g1, g2])
        (openModal fullPage (loadGames [g1, g2]) "g1" { initialSession with currentMediaIndex := 7 })
        [.next, .thumb 2, .openModal "nope", .prev, .prev]).currentMediaIndex ∧
     (run fullPage (loadGames [g1, g2])
        (openModal fullPage (loadGames [g1, g2]) "g1" { initialSession with currentMediaIndex := 7 })
        [.next, .thumb 2, .openModal "nope", .prev, .prev]).currentMediaIndex <
      ((run fullPage (loadGames [g1, g2])
        (openModal fullPage (loadGames [g1, g2]) "g1" { initialSession with currentMediaIndex := 7 })
        [.next, .thumb 2, .openModal "nope", .prev, .prev]).currentGameMedia.length : Int)) :=
  ⟨by decide, by decide, by decide,
    C1_index_valid_when_reachable fullPage (loadGames [g1, g2])
      { initialSession with currentMediaIndex := 7 } "g1" g1
      [.next, .thumb 2, .openModal "nope", .prev, .prev] (by decide) (by decide) (by decide)⟩

/-- C2: from every valid index `i` of a media list (so of length at least 1),
the next handler followed by the prev handler leaves `currentMediaIndex = i`,
and so does prev followed by next. -/
theorem C2_next_prev_round_trip (s : ModalState) (h0 : 0 ≤ s.currentMediaIndex)
    (h1 : s.currentMediaIndex < (s.currentGameMedia.length : Int)) :
    (prevHandler (nextHandler s)).currentMediaIndex = s.currentMediaIndex ∧
    (nextHandler (prevHandler s)).currentMediaIndex = s.currentMediaIndex := by
  have hn := nextHandler_index s h0 h1
  have hp := prevHandler_index s h0 h1
  constructor
  · have h0n : 0 ≤ (nextHandler s).currentMediaIndex := by rw [hn]; split <;> omega
    have h1n : (nextHandler s).currentMediaIndex <
        ((nextHandler s).currentGameMedia.length : Int) := by
      rw [nextHandler_media, hn]; split <;> omega
    rw [prevHandler_index _ h0n h1n, nextHandler_media, hn]
    split <;> split <;> omega
  · have h0p : 0 ≤ (prevHandler s).currentMediaIndex := by rw [hp]; split <;> omega
    have h1p : (prevHandler s).currentMediaIndex <
        ((prevHandler s).currentGameMedia.length : Int) := by
      rw [prevHandler_media, hp]; split <;> omega
    rw [nextHandler_index _ h0p h1p, prevHandler_media, hp]
    split <;> split <;> omega

/-- Witness of C2: `g1` opened and moved to its last index 2. -/
theorem C2_next_prev_round_trip_witness :
    (0 ≤ (run fullPage (loadGames [g1]) initialSession [.openModal "g1", .thumb 2]).currentMediaIndex ∧
     (run fullPage (loadGames [g1]) initialSession [.openModal "g1", .thumb 2]).currentMediaIndex <
      ((run fullPage (loadGames [g1]) initialSession [.openModal "g1", .thumb 2]).currentGameMedia.length : Int)) ∧
    ((prevHandler (nextHandler
        (run fullPage (loadGames [g1]) initialSession [.openModal "g1", .thumb 2]))).currentMediaIndex =
      (run fullPage (loadGames [g1]) initialSession [.openModal "g1", .thumb 2]).currentMediaIndex ∧
     (nextHandler (prevHandler
        (run fullPage (loadGames [g1]) initialSession [.openModal "g1", .thumb 2]))).currentMediaIndex =
      (run fullPage (loadGames [g1]) initialSession [.openModal "g1", .thumb 2]).currentMediaIndex) :=
  ⟨by decide,
    C2_next_prev_round_trip (run fullPage (loadGames [g1]) initialSession [.openModal "g1", .thumb 2])
      (by decide) (by decide)⟩

/-- C3: for a media list of length `n >= 1` and a valid current index, the next
handler sets the index to 0 at `n - 1` and adds exactly 1 elsewhere; the prev
handler sets it to `n - 1` at 0 and subtracts exactly 1 elsewhere.  Example:
with media `[imgA, vidB, imgC]`, open, next, next, next gives the indices
0, 1, 2, 0 and shows imgA, vidB, imgC, imgA. -/
theorem C3_navigation_wraps_around :
    (∀ s : ModalState, 0 ≤ s.currentMediaIndex →
      s.currentMediaIndex < (s.currentGameMedia.length : Int) →
      (nextHandler s).currentMediaIndex =
        (if s.currentMediaIndex = (s.currentGameMedia.length : Int) - 1 then 0
         else s.currentMediaIndex + 1) ∧
      (prevHandler s).currentMediaIndex =
        (if s.currentMediaIndex = 0 then (s.currentGameMedia.length : Int) - 1
         else s.currentMediaIndex - 1)) ∧
    ((run fullPage (loadGames [g1]) initialSession [.openModal "g1"]).currentMediaIndex = 0 ∧
     Displays (run fullPage (loadGames [g1]) initialSession [.openModal "g1"]).dom imgA ∧
     (run fullPage (loadGames [g1]) initialSession [.openModal "g1", .next]).currentMediaIndex = 1 ∧
     Displays (run fullPage (loadGames [g1]) initialSession [.openModal "g1", .next]).dom vidB ∧
     (run fullPage (loadGames [g1]) initialSession [.openModal "g1", .next, .next]).currentMediaIndex = 2 ∧
     Displays (run fullPage (loadGames [g1]) initialSession [.openModal "g1", .next, .next]).dom imgC ∧
     (run fullPage (loadGames [g1]) initialSession [.openModal "g1", .next, .next, .next]).currentMediaIndex = 0 ∧
     Displays (run fullPage (loadGames [g1]) initialSession [.openModal "g1", .next, .next, .next]).dom imgA) := by
  refine ⟨?_, by decide⟩
  intro s h0 h1
  rw [nextHandler_index s h0 h1, prevHandler_index s h0 h1]
  refine ⟨?_, rfl⟩
  split <;> split <;> omega

/-- Witness of C3: the general part at `g1` opened and moved to its last
index 2, where next wraps to 0 and prev gives 1. -/
theorem C3_navigation_wraps_around_witness :
    (0 ≤ (run fullPage (loadGames [g1]) initialSession [.openModal "g1", .thumb 2]).currentMediaIndex ∧
     (run fullPage (loadGames [g1]) initialSession [.openModal "g1", .thumb 2]).currentMediaIndex <
      ((run fullPage (loadGames [g1]) initialSession [.openModal "g1", .thumb 2]).currentGameMedia.length : Int)) ∧
    (nextHandler (run fullPage (loadGames [g1]) initialSession [.openModal "g1", .thumb 2])).currentMediaIndex
      = 0 ∧
    (prevHandler (run fullPage (loadGames [g1]) initialSession [.openModal "g1", .thumb 2])).currentMediaIndex
      = 1 := by
  have h := C3_navigation_wraps_around.1
    (run fullPage (loadGames [g1]) initialSession [.openModal "g1", .thumb 2]) (by decide) (by decide)
  refine ⟨by decide, ?_, ?_⟩
  · rw [h.1]; decide
  · rw [h.2]; decide

theorem setupGallery_displays (game : Game) (s : ModalState) (m : MediaItem)
    (hm : (game.media.getD []).head? = some m) :
    Displays (setupGallery game s).dom m := by
  have hne : (game.media.getD []).length > 0 := by
    cases hl : game.media.getD [] with
    | nil => rw [hl] at hm; cases hm
    | cons a l => simp
  have h0 : (game.media.getD [])[(0 : Int).toNat]? = some m := by
    cases hl : game.media.getD [] with
    | nil => rw [hl] at hm; cases hm
    | cons a l => rw [hl] at hm; simpa using hm
  have hd := updateMainDisplay_displays 0
    ({ s with currentGameMedia := game.media.getD [], currentMediaIndex := 0,
              dom := { s.dom with gallery := [] } } : ModalState) m (le_refl 0) h0
  unfold setupGallery
  dsimp only
  rw [if_pos hne]
  exact hd

/-- C4: when the modal element exists, for every id that is a key of `games`
and every prior session state, `openModal(id)` ends with
`currentMediaIndex = 0`, `currentGameMedia` equal to that record's media list
(`[]` when the record has none), the modal shown and page scroll locked, and
the first media item of the record, when there is one, in the main display
(video: iframe shown with the embed URL; otherwise: image shown with `src`). -/
theorem C4_openModal_resets_to_first (page : Page) (games : Games) (s : ModalState)
    (gameId : String) (game : Game)
    (hm : page.hasModal = true) (hg : games gameId = Value.record game) :
    (openModal page games gameId s).currentMediaIndex = 0 ∧
    (openModal page games gameId s).currentGameMedia = game.media.getD [] ∧
    (∀ m : MediaItem, (game.media.getD []).head? = some m →
      Displays (openModal page games gameId s).dom m) ∧
    (openModal page games gameId s).dom.modalDisplay = "block" ∧
    (openModal page games gameId s).dom.bodyOverflow = "hidden" := by
  refine ⟨openModal_index page games gameId s game hm hg,
    openModal_media page games gameId s game hm hg, ?_, ?_, ?_⟩
  · intro m hhead
    rw [openModal_known page games gameId s game hm hg]
    have hd := setupGallery_displays game
      { s with dom := setupActionButtons page game (setupTexts game s.dom) } m hhead
    unfold Displays at hd ⊢
    simpa [showModal, setupNavigation_dom] using hd
  · rw [openModal_known page games gameId s game hm hg]; rfl
  · rw [openModal_known page games gameId s game hm hg]; rfl

/-- Witness of C4: `g1` opened over a session left on the video of an earlier
game at index 1. -/
theorem C4_openModal_resets_to_first_witness :
    fullPage.hasModal = true ∧ loadGames [g1, g2] "g1" = Value.record g1 ∧
    (openModal fullPage (loadGames [g1, g2]) "g1"
      (run fullPage (loadGames [g1, g2]) initialSession [.openModal "g1", .next])).currentMediaIndex = 0 ∧
    (openModal fullPage (loadGames [g1, g2]) "g1"
      (run fullPage (loadGames [g1, g2]) initialSession [.openModal "g1", .next])).currentGameMedia
        = [imgA, vidB, imgC] ∧
    Displays (openModal fullPage (loadGames [g1, g2]) "g1"
      (run fullPage (loadGames [g1, g2]) initialSession [.openModal "g1", .next])).dom imgA := by
  have h := C4_openModal_resets_to_first fullPage (loadGames [g1, g2])
    (run fullPage (loadGames [g1, g2]) initialSession [.openModal "g1", .next]) "g1" g1
    (by decide) (by decide)
  exact ⟨by decide, by decide, h.1, h.2.1, h.2.2.1 imgA (by decide)⟩

/-- C5: for every id under which `games` holds no record (the lookup
`games[id]` is not a game record), and with or without the modal element,
`openModal(id)` leaves `currentGameMedia`, `currentMediaIndex`, the displayed
media (image, video frame, play button, thumbnails), the modal's display flag
and the page scroll lock as they were, as well as the action links and the
navigation handlers: Closed stays Closed, Open stays Open on its prior game
and index.  When the lookup is falsy (any id that is neither a key nor a name
the object inherits) the call returns normally and the whole state is
unchanged. -/
theorem C5_openModal_unknown_id_unchanged (page : Page) (games : Games) (s : ModalState)
    (gameId : String) (hg : ∀ game : Game, games gameId ≠ Value.record game) :
    (openModal page games gameId s).currentGameMedia = s.currentGameMedia ∧
    (openModal page games gameId s).currentMediaIndex = s.currentMediaIndex ∧
    ((openModal page games gameId s).dom.imgDisplay = s.dom.imgDisplay ∧
      (openModal page games gameId s).dom.imgSrc = s.dom.imgSrc ∧
      (openModal page games gameId s).dom.iframeDisplay = s.dom.iframeDisplay ∧
      (openModal page games gameId s).dom.iframeSrc = s.dom.iframeSrc ∧
      (openModal page games gameId s).dom.videoPlayBtnDisplay = s.dom.videoPlayBtnDisplay ∧
      (openModal page games gameId s).dom.gallery = s.dom.gallery) ∧
    (openModal page games gameId s).dom.modalDisplay = s.dom.modalDisplay ∧
    (openModal page games gameId s).dom.bodyOverflow = s.dom.bodyOverflow ∧
    (openModal page games gameId s).dom.githubBtn = s.dom.githubBtn ∧
    (openModal page games gameId s).dom.playBtn = s.dom.playBtn ∧
    (openModal page games gameId s).navHandlers = s.navHandlers ∧
    ((games gameId).truthy = false →
      openModal page games gameId s = s ∧
      (openModalCall page games gameId s).2 = Completion.normal) := by
  have hlast : (games gameId).truthy = false →
      openModal page games gameId s = s ∧
      (openModalCall page games gameId s).2 = Completion.normal := by
    intro ht
    refine ⟨openModal_falsy page games gameId s ht, ?_⟩
    rw [openModalCall_falsy page games gameId s ht]
  rcases openModal_cases page games gameId s hg with he | he
  · rw [he] at hlast ⊢
    exact ⟨rfl, rfl, ⟨rfl, rfl, rfl, rfl, rfl, rfl⟩, rfl, rfl, rfl, rfl, rfl, hlast⟩
  · rw [he] at hlast ⊢
    exact ⟨rfl, rfl, ⟨rfl, rfl, rfl, rfl, rfl, rfl⟩, rfl, rfl, rfl, rfl, rfl, hlast⟩

/-- Witness of C5: while `g1` is open on its video at index 1, the inherited
name `toString` (no record, but truthy) and the unknown id `nope` (falsy). -/
theorem C5_openModal_unknown_id_unchanged_witness :
    (∀ game : Game, loadGames [g1, g2] "toString" ≠ Value.record game) ∧
    (openModal fullPage (loadGames [g1, g2]) "toString"
      (run fullPage (loadGames [g1, g2]) initialSession [.openModal "g1", .next])).currentGameMedia
        = [imgA, vidB, imgC] ∧
    (openModal fullPage (loadGames [g1, g2]) "toString"
      (run fullPage (loadGames [g1, g2]) initialSession [.openModal "g1", .next])).currentMediaIndex
        = 1 ∧
    (openModal fullPage (loadGames [g1, g2]) "toString"
      (run fullPage (loadGames [g1, g2]) initialSession [.openModal "g1", .next])).dom.modalDisplay
        = "block" ∧
    (loadGames [g1, g2] "nope").truthy = false ∧
    openModal fullPage (loadGames [g1, g2]) "nope"
        (run fullPage (loadGames [g1, g2]) initialSession [.openModal "g1", .next]) =
      run fullPage (loadGames [g1, g2]) initialSession [.openModal "g1", .next] := by
  have hv : loadGames [g1, g2] "toString" = Value.function := by decide
  have hn : loadGames [g1, g2] "nope" = Value.undefined := by decide
  have h1 : ∀ game : Game, loadGames [g1, g2] "toString" ≠ Value.record game := by
    intro game h
    rw [hv] at h
    cases h
  have h2 : ∀ game : Game, loadGames [g1, g2] "nope" ≠ Value.record game := by
    intro game h
    rw [hn] at h
    cases h
  have ht : (loadGames [g1, g2] "nope").truthy = false := by decide
  have c1 := C5_openModal_unknown_id_unchanged fullPage (loadGames [g1, g2])
    (run fullPage (loadGames [g1, g2]) initialSession [.openModal "g1", .next]) "toString" h1
  have c2 := C5_openModal_unknown_id_unchanged fullPage (loadGames [g1, g2])
    (run fullPage (loadGames [g1, g2]) initialSession [.openModal "g1", .next]) "nope" h2
  refine ⟨h1, ?_, ?_, ?_, ht, (c2.2.2.2.2.2.2.2.2 ht).1⟩
  · rw [c1.1]; decide
  · rw [c1.2.1]; decide
  · rw [c1.2.2.2.1]; decide

/-- C6: `updateMainDisplay(index)` with `index < 0` or
`index >= currentGameMedia.length` returns the session unchanged (index,
displayed media and everything else); with an empty media list that is every
index, and the prev and next handlers change nothing either. -/
theorem C6_out_of_range_selection_ignored (s : ModalState) (index : Int) :
    ((index < 0 ∨ index ≥ (s.currentGameMedia.length : Int)) →
      updateMainDisplay index s = s) ∧
    (s.currentGameMedia = [] →
      updateMainDisplay index s = s ∧ prevHandler s = s ∧ nextHandler s = s) := by
  refine ⟨updateMainDisplay_out index s, ?_⟩
  intro he
  refine ⟨?_, ?_, ?_⟩
  · apply updateMainDisplay_out
    rw [he]
    simp only [List.length_nil, Int.ofNat_zero]
    omega
  · unfold prevHandler
    rw [if_neg (by rw [he]; simp)]
  · unfold nextHandler
    rw [if_neg (by rw [he]; simp)]

/-- Witness of C6: index 3 on the three items of `g1`, and the handlers on the
empty list left by opening `g2`. -/
theorem C6_out_of_range_selection_ignored_witness :
    (((3 : Int) < 0 ∨ (3 : Int) ≥
        ((run fullPage (loadGames [g1, g2]) initialSession [.openModal "g1", .next]).currentGameMedia.length : Int)) ∧
      updateMainDisplay 3 (run fullPage (loadGames [g1, g2]) initialSession [.openModal "g1", .next]) =
        run fullPage (loadGames [g1, g2]) initialSession [.openModal "g1", .next]) ∧
    ((run fullPage (loadGames [g1, g2]) initialSession [.openModal "g1", .openModal "g2"]).currentGameMedia = [] ∧
      prevHandler (run fullPage (loadGames [g1, g2]) initialSession [.openModal "g1", .openModal "g2"]) =
        run fullPage (loadGames [g1, g2]) initialSession [.openModal "g1", .openModal "g2"] ∧
      nextHandler (run fullPage (loadGames [g1, g2]) initialSession [.openModal "g1", .openModal "g2"]) =
        run fullPage (loadGames [g1, g2]) initialSession [.openModal "g1", .openModal "g2"]) :=
  ⟨⟨by decide,
      (C6_out_of_range_selection_ignored
        (run fullPage (loadGames [g1, g2]) initialSession [.openModal "g1", .next]) 3).1 (by decide)⟩,
    ⟨by decide,
      ((C6_out_of_range_selection_ignored
        (run fullPage (loadGames [g1, g2]) initialSession [.openModal "g1", .openModal "g2"]) 0).2 (by decide)).2⟩⟩

/-! ## Action links -/

theorem setupActionButtons_github (page : Page) (game : Game) (d : Dom) :
    (setupActionButtons page game d).githubBtn =
      if page.hasGithubBtn && truthy game.githubUrl then
        { d.githubBtn with href := game.githubUrl.getD "", target := "_blank" }
      else d.githubBtn := by
  unfold setupActionButtons
  dsimp only
  split <;> split <;> rfl

theorem setupActionButtons_play (page : Page) (game : Game) (d : Dom) :
    (setupActionButtons page game d).playBtn =
      if page.hasPlayBtn && truthy game.playUrl then
        { d.playBtn with href := game.playUrl.getD "", target := "_blank" }
      else d.playBtn := by
  unfold setupActionButtons
  dsimp only
  split <;> split <;> rfl

theorem updateMainDisplay_links (index : Int) (s : ModalState) :
    (updateMainDisplay index s).dom.githubBtn = s.dom.githubBtn ∧
    (updateMainDisplay index s).dom.playBtn = s.dom.playBtn := by
  unfold updateMainDisplay
  split
  · exact ⟨rfl, rfl⟩
  · split
    · exact ⟨rfl, rfl⟩
    · dsimp only
      split <;> exact ⟨rfl, rfl⟩

theorem setupGallery_links (game : Game) (s : ModalState) :
    (setupGallery game s).dom.githubBtn = s.dom.githubBtn ∧
    (setupGallery game s).dom.playBtn = s.dom.playBtn := by
  unfold setupGallery
  dsimp only
  split
  · exact updateMainDisplay_links 0 _
  · exact ⟨rfl, rfl⟩

theorem openModal_links (page : Page) (games : Games) (gameId : String) (s : ModalState)
    (game : Game) (hm : page.hasModal = true) (hg : games gameId = Value.record game) :
    (openModal page games gameId s).dom.githubBtn =
      (setupActionButtons page game (setupTexts game s.dom)).githubBtn ∧
    (openModal page games gameId s).dom.playBtn =
      (setupActionButtons page game (setupTexts game s.dom)).playBtn := by
  rw [openModal_known page games gameId s game hm hg]
  have h := setupGallery_links game
    { s with dom := setupActionButtons page game (setupTexts game s.dom) }
  have hn := setupNavigation_dom page (setupGallery game
    { s with dom := setupActionButtons page game (setupTexts game s.dom) })
  constructor
  · show (setupNavigation page _).dom.githubBtn = _
    rw [hn]; exact h.1
  · show (setupNavigation page _).dom.playBtn = _
    rw [hn]; exact h.2

/-- C7, as stated, fails: on the example page, opening `g1` (both URLs) and
then `g2` (no URL) leaves both links shown and still pointing at the URLs of
`g1`, so the links do not follow the opened record `g2`. -/
theorem C7_links_of_previous_game_remain :
    g2.githubUrl = none ∧ g2.playUrl = none ∧
    (run fullPage (loadGames [g1, g2]) initialSession [.openModal "g1", .openModal "g2"]).dom.title = "Two" ∧
    (run fullPage (loadGames [g1, g2]) initialSession [.openModal "g1", .openModal "g2"]).dom.githubBtn.shown ∧
    (run fullPage (loadGames [g1, g2]) initialSession [.openModal "g1", .openModal "g2"]).dom.githubBtn.href
      = "https://git/one" ∧
    (run fullPage (loadGames [g1, g2]) initialSession [.openModal "g1", .openModal "g2"]).dom.playBtn.shown ∧
    (run fullPage (loadGames [g1, g2]) initialSession [.openModal "g1", .openModal "g2"]).dom.playBtn.href
      = "https://play/one" ∧
    ¬ LinksFollow g2 (run fullPage (loadGames [g1, g2]) initialSession [.openModal "g1", .openModal "g2"]).dom := by
  refine ⟨rfl, rfl, by decide, by decide, by decide, by decide, by decide, ?_⟩
  intro h
  have hs : (run fullPage (loadGames [g1, g2]) initialSession
      [.openModal "g1", .openModal "g2"]).dom.githubBtn.shown := by decide
  have hf := h.1.mp hs
  exact absurd hf (by decide)

/-- C7, amended: after a successful `openModal(g.id)` (modal element present),
from every prior state, a link that exists on the page targets the record's
URL, opened in a new tab, whenever the record has that URL (non-empty); and
`openModal` changes the `display` of neither link. -/
theorem C7_links_set_when_url_present (page : Page) (games : Games) (s : ModalState)
    (gameId : String) (game : Game)
    (hm : page.hasModal = true) (hg : games gameId = Value.record game) :
    (∀ u : String, page.hasGithubBtn = true → game.githubUrl = some u → u ≠ "" →
      (openModal page games gameId s).dom.githubBtn.href = u ∧
      (openModal page games gameId s).dom.githubBtn.target = "_blank") ∧
    (∀ u : String, page.hasPlayBtn = true → game.playUrl = some u → u ≠ "" →
      (openModal page games gameId s).dom.playBtn.href = u ∧
      (openModal page games gameId s).dom.playBtn.target = "_blank") ∧
    (openModal page games gameId s).dom.githubBtn.display = s.dom.githubBtn.display ∧
    (openModal page games gameId s).dom.playBtn.display = s.dom.playBtn.display := by
  obtain ⟨h1, h2⟩ := openModal_links page games gameId s game hm hg
  rw [h1, h2, setupActionButtons_github, setupActionButtons_play]
  refine ⟨?_, ?_, ?_, ?_⟩
  · intro u hb hu hne
    simp [hb, hu, truthy, hne]
  · intro u hb hu hne
    simp [hb, hu, truthy, hne]
  · split <;> rfl
  · split <;> rfl

/-- Witness of C7 amended: `g1` opened on the example page from the initial
session. -/
theorem C7_links_set_when_url_present_witness :
    fullPage.hasModal = true ∧ loadGames [g1, g2] "g1" = Value.record g1 ∧
    (openModal fullPage (loadGames [g1, g2]) "g1" initialSession).dom.githubBtn.href = "https://git/one" ∧
    (openModal fullPage (loadGames [g1, g2]) "g1" initialSession).dom.playBtn.href = "https://play/one" :=
  ⟨by decide, by decide,
    ((C7_links_set_when_url_present fullPage (loadGames [g1, g2]) initialSession "g1" g1
      (by decide) (by decide)).1 "https://git/one" (by decide) (by decide) (by decide)).1,
    ((C7_links_set_when_url_present fullPage (loadGames [g1, g2]) initialSession "g1" g1
      (by decide) (by decide)).2.1 "https://play/one" (by decide) (by decide) (by decide)).1⟩

/-! ## Particle field: reflection -/

theorem update_x (v : Viewport) (p : Particle) : (p.update v).x = p.x + p.vx := rfl

theorem update_y (v : Viewport) (p : Particle) : (p.update v).y = p.y + p.vy := rfl

theorem update_vx (v : Viewport) (p : Particle) :
    (p.update v).vx = if reflectsX v p then -p.vx else p.vx := by
  show (if p.x + p.vx < 0 ∨ p.x + p.vx > v.width then p.vx * -1 else p.vx) = _
  unfold reflectsX
  split <;> ring

theorem update_vy (v : Viewport) (p : Particle) :
    (p.update v).vy = if reflectsY v p then -p.vy else p.vy := by
  show (if p.y + p.vy < 0 ∨ p.y + p.vy > v.height then p.vy * -1 else p.vy) = _
  unfold reflectsY
  split <;> ring

theorem update_InvX (v : Viewport) (p : Particle) (h : InvX v p) : InvX v (p.update v) := by
  unfold InvX
  rw [update_x, update_vx]
  by_cases hr : reflectsX v p
  · rw [if_pos hr]
    rcases h with h | h
    · right
      constructor <;> linarith [h.1, h.2]
    · unfold reflectsX at hr
      rcases hr with hr | hr
      · linarith [h.1]
      · linarith [h.2]
  · left
    unfold reflectsX at hr
    push_neg at hr
    exact ⟨hr.1, hr.2⟩

theorem update_InvY (v : Viewport) (p : Particle) (h : InvY v p) : InvY v (p.update v) := by
  unfold InvY
  rw [update_y, update_vy]
  by_cases hr : reflectsY v p
  · rw [if_pos hr]
    rcases h with h | h
    · right
      constructor <;> linarith [h.1, h.2]
    · unfold reflectsY at hr
      rcases hr with hr | hr
      · linarith [h.1]
      · linarith [h.2]
  · left
    unfold reflectsY at hr
    push_neg at hr
    exact ⟨hr.1, hr.2⟩

theorem update_abs_vx (v : Viewport) (p : Particle) : |(p.update v).vx| = |p.vx| := by
  rw [update_vx]
  split
  · exact abs_neg _
  · rfl

theorem update_abs_vy (v : Viewport) (p : Particle) : |(p.update v).vy| = |p.vy| := by
  rw [update_vy]
  split
  · exact abs_neg _
  · rfl

theorem updateN_inv (v : Viewport) (n : Nat) :
    ∀ p : Particle, InvX v p → InvY v p →
      InvX v (p.updateN v n) ∧ InvY v (p.updateN v n) ∧
      |(p.updateN v n).vx| = |p.vx| ∧ |(p.updateN v n).vy| = |p.vy| := by
  induction n with
  | zero => intro p hx hy; exact ⟨hx, hy, rfl, rfl⟩
  | succ n ih =>
    intro p hx hy
    obtain ⟨h1, h2, h3, h4⟩ := ih (p.update v) (update_InvX v p hx) (update_InvY v p hy)
    refine ⟨h1, h2, ?_, ?_⟩
    · show |((p.update v).updateN v n).vx| = _
      rw [h3, update_abs_vx]
    · show |((p.update v).updateN v n).vy| = _
      rw [h4, update_abs_vy]

theorem InvX_bound (v : Viewport) (p : Particle) (h : InvX v p) :
    -|p.vx| ≤ p.x ∧ p.x ≤ v.width + |p.vx| := by
  have h1 := neg_abs_le p.vx
  have h2 := le_abs_self p.vx
  have h3 := abs_nonneg p.vx
  rcases h with h | h <;> constructor <;> linarith [h.1, h.2]

theorem InvY_bound (v : Viewport) (p : Particle) (h : InvY v p) :
    -|p.vy| ≤ p.y ∧ p.y ≤ v.height + |p.vy| := by
  have h1 := neg_abs_le p.vy
  have h2 := le_abs_self p.vy
  have h3 := abs_nonneg p.vy
  rcases h with h | h <;> constructor <;> linarith [h.1, h.2]

theorem InvX_back_inside (v : Viewport) (p : Particle) (h : InvX v p)
    (hr : reflectsX v p) :
    0 ≤ ((p.update v).update v).x ∧ ((p.update v).update v).x ≤ v.width := by
  rw [update_x, update_x, update_vx, if_pos hr]
  unfold reflectsX at hr
  rcases h with h | h
  · constructor <;> linarith [h.1, h.2]
  · rcases hr with hr | hr
    · linarith [h.1]
    · linarith [h.2]

theorem InvY_back_inside (v : Viewport) (p : Particle) (h : InvY v p)
    (hr : reflectsY v p) :
    0 ≤ ((p.update v).update v).y ∧ ((p.update v).update v).y ≤ v.height := by
  rw [update_y, update_y, update_vy, if_pos hr]
  unfold reflectsY at hr
  rcases h with h | h
  · constructor <;> linarith [h.1, h.2]
  · rcases hr with hr | hr
    · linarith [h.1]
    · linarith [h.2]

/-- C8: under a fixed viewport, a particle that starts inside
`[0, width] x [0, height]` satisfies, after any number `n` of `update` steps,
`-|vx| <= x <= width + |vx|` and `-|vy| <= y <= height + |vy|`; and when the
next step reflects on an axis (its advanced coordinate is outside, so the
velocity is inverted), the step after it brings that coordinate back inside
`[0, width]` (resp. `[0, height]`).  Exact rational arithmetic. -/
theorem C8_bounded_overshoot (v : Viewport) (p : Particle) (n : Nat)
    (hx : 0 ≤ p.x ∧ p.x ≤ v.width) (hy : 0 ≤ p.y ∧ p.y ≤ v.height) :
    (-|p.vx| ≤ (p.updateN v n).x ∧ (p.updateN v n).x ≤ v.width + |p.vx|) ∧
    (-|p.vy| ≤ (p.updateN v n).y ∧ (p.updateN v n).y ≤ v.height + |p.vy|) ∧
    (reflectsX v (p.updateN v n) →
      0 ≤ (((p.updateN v n).update v).update v).x ∧
      (((p.updateN v n).update v).update v).x ≤ v.width) ∧
    (reflectsY v (p.updateN v n) →
      0 ≤ (((p.updateN v n).update v).update v).y ∧
      (((p.updateN v n).update v).update v).y ≤ v.height) := by
  obtain ⟨h1, h2, h3, h4⟩ := updateN_inv v n p (Or.inl hx) (Or.inl hy)
  have bx := InvX_bound v _ h1
  have bY := InvY_bound v _ h2
  rw [h3] at bx
  rw [h4] at bY
  exact ⟨bx, bY, InvX_back_inside v _ h1, InvY_back_inside v _ h2⟩

/-- Witness of C8: `pIn` after two steps is at `x = 99.9`; the third step
overshoots to `100.1` and reflects, the fourth is back at `99.9`. -/
theorem C8_bounded_overshoot_witness :
    (0 ≤ pIn.x ∧ pIn.x ≤ vp.width) ∧ (0 ≤ pIn.y ∧ pIn.y ≤ vp.height) ∧
    reflectsX vp (pIn.updateN vp 2) ∧
    (-|pIn.vx| ≤ (pIn.updateN vp 2).x ∧ (pIn.updateN vp 2).x ≤ vp.width + |pIn.vx|) ∧
    (0 ≤ (((pIn.updateN vp 2).update vp).update vp).x ∧
      (((pIn.updateN vp 2).update vp).update vp).x ≤ vp.width) := by
  have hx : 0 ≤ pIn.x ∧ pIn.x ≤ vp.width := by norm_num [pIn, vp]
  have hy : 0 ≤ pIn.y ∧ pIn.y ≤ vp.height := by norm_num [pIn, vp]
  have hr : reflectsX vp (pIn.updateN vp 2) := by
    unfold reflectsX
    norm_num [Particle.updateN, Particle.update, pIn, vp]
  have h := C8_bounded_overshoot vp pIn 2 hx hy
  exact ⟨hx, hy, hr, h.1, h.2.2.1 hr⟩

/-- C9, as stated, fails: `pOut` is outside the bounds and moving away, so its
update crosses no boundary, yet the update inverts `vx` (from -1 to 1), the
next update inverts it again (back to -1), and after the two updates the
particle is where it started instead of further out. -/
theorem C9_reflects_without_crossing :
    ¬ crossesX vp pOut ∧
    pOut.vx = -1 ∧ (pOut.update vp).vx = 1 ∧ ((pOut.update vp).update vp).vx = -1 ∧
    pOut.x = -10 ∧ (pOut.update vp).x = -11 ∧ ((pOut.update vp).update vp).x = -10 := by
  refine ⟨?_, ?_, ?_, ?_, ?_, ?_, ?_⟩
  · unfold crossesX
    norm_num [Particle.update, pOut, vp]
  all_goals norm_num [Particle.update, pOut, vp]

/-- C9, amended: `update` inverts `vx` exactly when the advanced position
`x + vx` is outside `[0, width]`, whatever the position before.  For a particle
whose position before the update is inside `[0, width]` this is exactly a move
from inside to outside, and the following update does not invert `vx` again.
The same holds independently for `vy` and `height`. -/
theorem C9_reflection_on_outside_sample (v : Viewport) (p : Particle) :
    (p.update v).vx = (if (p.update v).x < 0 ∨ (p.update v).x > v.width then -p.vx else p.vx) ∧
    (p.update v).vy = (if (p.update v).y < 0 ∨ (p.update v).y > v.height then -p.vy else p.vy) ∧
    ((0 ≤ p.x ∧ p.x ≤ v.width) →
      (reflectsX v p ↔ crossesX v p) ∧ ¬ (reflectsX v p ∧ reflectsX v (p.update v))) ∧
    ((0 ≤ p.y ∧ p.y ≤ v.height) →
      (reflectsY v p ↔ crossesY v p) ∧ ¬ (reflectsY v p ∧ reflectsY v (p.update v))) := by
  refine ⟨update_vx v p, update_vy v p, ?_, ?_⟩
  · intro hin
    refine ⟨⟨fun h => ⟨hin, h⟩, fun h => h.2⟩, ?_⟩
    rintro ⟨h1, h2⟩
    have hb := InvX_back_inside v p (Or.inl hin) h1
    rw [update_x] at hb
    unfold reflectsX at h2
    rcases h2 with h2 | h2
    · linarith [hb.1]
    · linarith [hb.2]
  · intro hin
    refine ⟨⟨fun h => ⟨hin, h⟩, fun h => h.2⟩, ?_⟩
    rintro ⟨h1, h2⟩
    have hb := InvY_back_inside v p (Or.inl hin) h1
    rw [update_y] at hb
    unfold reflectsY at h2
    rcases h2 with h2 | h2
    · linarith [hb.1]
    · linarith [hb.2]

/-- Witness of C9 amended: `pIn` moved to `x = 99.9`, whose next update
crosses the right edge. -/
theorem C9_reflection_on_outside_sample_witness :
    (0 ≤ (pIn.updateN vp 2).x ∧ (pIn.updateN vp 2).x ≤ vp.width) ∧
    reflectsX vp (pIn.updateN vp 2) ∧
    crossesX vp (pIn.updateN vp 2) ∧
    ¬ reflectsX vp ((pIn.updateN vp 2).update vp) := by
  have hin : 0 ≤ (pIn.updateN vp 2).x ∧ (pIn.updateN vp 2).x ≤ vp.width := by
    norm_num [Particle.updateN, Particle.update, pIn, vp]
  have hr : reflectsX vp (pIn.updateN vp 2) := by
    unfold reflectsX
    norm_num [Particle.updateN, Particle.update, pIn, vp]
  have h := (C9_reflection_on_outside_sample vp (pIn.updateN vp 2)).2.2.1 hin
  exact ⟨hin, hr, h.1.mp hr, fun h2 => h.2 ⟨hr, h2⟩⟩

/-! ## Particle field: connection lines -/

/-- C10, as stated, fails: over exact rationals there is no distance at which
a line is drawn with a non-positive opacity. -/
theorem C10_no_drawn_line_with_nonpositive_opacity :
    ¬ ∃ (dist : ℚ) (p1 p2 : Particle) (line : Line),
      connectAt dist p1 p2 = some line ∧ line.opacity ≤ 0 := by
  rintro ⟨dist, p1, p2, line, h, hle⟩
  unfold connectAt at h
  split at h
  · rename_i hd
    cases h
    dsimp only at hle
    linarith
  · cases h

/-- C10, amended: in the connection pass a line is drawn for a pair at
distance `dist` exactly when `dist < 100`, with opacity `0.1 - dist / 1000`
and width 0.5 between the two positions, and the opacity of every drawn line
is strictly positive (it would reach 0 only at `dist = 100`, where no line is
drawn). -/
theorem C10_drawn_line_opacity_positive (sqrt : ℚ → ℚ) (p1 p2 : Particle) :
    ((connectPair sqrt p1 p2).isSome = true ↔ pairDist sqrt p1 p2 < 100) ∧
    (∀ line : Line, connectPair sqrt p1 p2 = some line →
      line.opacity = 1 / 10 - pairDist sqrt p1 p2 / 1000 ∧ 0 < line.opacity ∧
      line.lineWidth = 1 / 2 ∧
      line.x1 = p1.x ∧ line.y1 = p1.y ∧ line.x2 = p2.x ∧ line.y2 = p2.y) ∧
    (∀ (ps : List Particle) (line : Line), line ∈ connectionPass sqrt ps → 0 < line.opacity) := by
  have key : ∀ (q1 q2 : Particle) (line : Line), connectPair sqrt q1 q2 = some line →
      line.opacity = 1 / 10 - pairDist sqrt q1 q2 / 1000 ∧ 0 < line.opacity ∧
      line.lineWidth = 1 / 2 ∧
      line.x1 = q1.x ∧ line.y1 = q1.y ∧ line.x2 = q2.x ∧ line.y2 = q2.y := by
    intro q1 q2 line h
    unfold connectPair connectAt at h
    split at h
    · rename_i hd
      cases h
      refine ⟨rfl, ?_, rfl, rfl, rfl, rfl, rfl⟩
      dsimp only
      linarith
    · cases h
  refine ⟨?_, key p1 p2, ?_⟩
  · unfold connectPair connectAt
    split <;> simp [*]
  · intro ps
    induction ps with
    | nil => intro line h; cases h
    | cons q rest ih =>
      intro line h
      unfold connectionPass at h
      rcases List.mem_append.mp h with h | h
      · obtain ⟨q2, _, hq⟩ := List.mem_filterMap.mp h
        exact (key q q2 line hq).2.1
      · exact ih line h

/-- Witness of C10 amended: two particles at distance 5 (a 3-4-5 triangle,
with the square root of 25 given as 5) are joined by a line of opacity
`0.095`. -/
theorem C10_drawn_line_opacity_positive_witness :
    connectPair (fun _ => 5) { pIn with x := 3, y := 0 } { pIn with x := 0, y := 4 } =
      some { x1 := 3, y1 := 0, x2 := 0, y2 := 4, opacity := 19 / 200, lineWidth := 1 / 2 } ∧
    (0 : ℚ) < 19 / 200 := by
  have h : connectPair (fun _ => 5) { pIn with x := 3, y := 0 } { pIn with x := 0, y := 4 } =
      some { x1 := 3, y1 := 0, x2 := 0, y2 := 4, opacity := 19 / 200, lineWidth := 1 / 2 } := by
    norm_num [connectPair, connectAt, pairDist]
  have hp := ((C10_drawn_line_opacity_positive (fun _ => 5)
    { pIn with x := 3, y := 0 } { pIn with x := 0, y := 4 }).2.1 _ h).2.1
  exact ⟨h, hp⟩

end Portfolio
